import Mathlib

/-!
Verification of the ralph-rlm OpenCode plugin (src/.opencode/plugins/ralph-rlm.ts).

This file gives a shallow embedding of the plugin's data model and of the
operations the verified claims are about, translated from the TypeScript
source, together with theorems about them.

Modelling conventions, applied throughout:
- JavaScript numbers that the plugin only ever uses as integers (attempt
  counters, line counts, millisecond timestamps, config bounds) are modelled
  as Int or Nat.  Raw JSON config values that may be absent, of the wrong
  type, NaN or infinite are modelled by the RawNum type below; a finite
  number is represented by its Math.trunc image, which is exactly how
  toBoundedInt consumes it.
- JavaScript Map and plain-object dictionaries are modelled as association
  lists with a last-write-wins update (setAssoc below), matching assignment
  semantics of sessionMap.set and obj[key] = v.
- Asynchronous I/O side effects (document writes, session host calls,
  notifications, toasts) are modelled as explicit action values emitted by
  the state-transition functions; purely observational effects (log lines,
  toast text, conversation appends) that no claim mentions are omitted.
- Fields of the source records that are only read to build notification
  text (reportedStatus, reportedStatusNote, lastProgressAt, spawnedAt,
  askedAt, respondedAt timestamps) are omitted from the embedded records;
  no modelled control path branches on them except where noted.
-/

namespace RalphRlm

/-- Role of a tracked session, from the SessionRole union in the source:
main, ralph (the strategist), worker, subagent. -/
inductive Role
  | main
  | ralph
  | worker
  | subagent
  deriving DecidableEq, Repr

/-- Status of a spawned sub-agent task, from SubAgentRecord.status. -/
inductive SubAgentStatus
  | running
  | done
  | failed
  deriving DecidableEq, Repr

/-- One entry of a session's spawned sub-agents list (SubAgentRecord in the
source); the spawnedAt timestamp is omitted (never branched on). -/
structure SubAgentRecord where
  sessionId : String
  name : String
  goal : String
  status : SubAgentStatus
  deriving DecidableEq, Repr

/-- Per-session mutable state (SessionState in the source).  lastGrepAt is
the millisecond timestamp of the session's last rlm_grep call, used by the
grep-before-slice gate of rlm_slice.  reportedStatus, reportedStatusNote,
lastProgressAt and lastGrepQuery are omitted: they only feed notification
text and heartbeat warnings, which no modelled control path branches on. -/
structure SessionState where
  role : Role
  attempt : Nat
  loadedContext : Bool
  workerSpawned : Bool
  lastGrepAt : Option Int
  subAgents : List SubAgentRecord
  deriving DecidableEq, Repr

/-- freshSession(role = "main", attempt = 0) from the source. -/
def freshSession (role : Role := .main) (attempt : Nat := 0) : SessionState :=
  { role := role
    attempt := attempt
    loadedContext := false
    workerSpawned := false
    lastGrepAt := none
    subAgents := [] }

/-- Keyed lookup in an association list, modelling Map.get(k) of the ES Map
and obj[k] of a plain object (returns the value bound to the key, if any). -/
def lookupA {κ α : Type} [BEq κ] : List (κ × α) → κ → Option α
  | [], _ => none
  | p :: t, k => if p.1 == k then some p.2 else lookupA t k

/-- Last-write-wins update of an association list, modelling both
sessionMap.set(k, v) of the ES Map and obj[k] = v of a plain object:
if the key is present its binding is replaced in place, otherwise the
pair is appended. -/
def setAssoc {κ α : Type} [BEq κ] (m : List (κ × α)) (k : κ) (v : α) :
    List (κ × α) :=
  if (lookupA m k).isSome then
    m.map (fun p => if p.1 == k then (k, v) else p)
  else
    m ++ [(k, v)]

theorem lookupA_map_replace_self {κ α : Type} [BEq κ] [LawfulBEq κ]
    (m : List (κ × α)) (k : κ) (v : α) (h : (lookupA m k).isSome = true) :
    lookupA (m.map (fun p => if p.1 == k then (k, v) else p)) k = some v := by
  induction m with
  | nil => simp [lookupA] at h
  | cons p t ih =>
    by_cases hp : p.1 = k
    · simp [lookupA, hp]
    · have hb : (p.1 == k) = false := by simp [hp]
      simp only [lookupA, hb, Bool.false_eq_true, if_false] at h
      simp only [List.map_cons, hb, Bool.false_eq_true, if_false, lookupA]
      exact ih h

theorem lookupA_append_single_self {κ α : Type} [BEq κ] [LawfulBEq κ]
    (m : List (κ × α)) (k : κ) (v : α) (h : (lookupA m k).isSome = false) :
    lookupA (m ++ [(k, v)]) k = some v := by
  induction m with
  | nil => simp [lookupA]
  | cons p t ih =>
    by_cases hp : p.1 = k
    · simp [lookupA, hp] at h
    · have hb : (p.1 == k) = false := by simp [hp]
      simp only [lookupA, hb, Bool.false_eq_true, if_false] at h
      simp only [List.cons_append, lookupA, hb, Bool.false_eq_true, if_false]
      exact ih h

theorem lookupA_setAssoc_self {κ α : Type} [BEq κ] [LawfulBEq κ]
    (m : List (κ × α)) (k : κ) (v : α) :
    lookupA (setAssoc m k v) k = some v := by
  unfold setAssoc
  split
  · exact lookupA_map_replace_self m k v (by assumption)
  · exact lookupA_append_single_self m k v
      (by rename_i h; simpa using h)

theorem lookupA_map_replace_ne {κ α : Type} [BEq κ] [LawfulBEq κ]
    (m : List (κ × α)) (k k' : κ) (v : α) (hne : k' ≠ k) :
    lookupA (m.map (fun p => if p.1 == k then (k, v) else p)) k'
      = lookupA m k' := by
  have hnb : (k == k') = false := by simp; exact fun h => hne h.symm
  induction m with
  | nil => simp
  | cons p t ih =>
    by_cases hp : p.1 = k
    · have hb : (p.1 == k) = true := by simp [hp]
      have hpk : (p.1 == k') = false := by rw [hp]; exact hnb
      simp only [List.map_cons, hb, if_true, lookupA, hnb, hpk,
        Bool.false_eq_true, if_false]
      exact ih
    · have hb : (p.1 == k) = false := by simp [hp]
      simp only [List.map_cons, hb, Bool.false_eq_true, if_false, lookupA]
      by_cases hk1 : p.1 = k'
      · simp [hk1]
      · have hk1b : (p.1 == k') = false := by simp [hk1]
        simp only [hk1b, Bool.false_eq_true, if_false]
        exact ih

theorem lookupA_append_single_ne {κ α : Type} [BEq κ] [LawfulBEq κ]
    (m : List (κ × α)) (k k' : κ) (v : α) (hne : k' ≠ k) :
    lookupA (m ++ [(k, v)]) k' = lookupA m k' := by
  have hnb : (k == k') = false := by simp; exact fun h => hne h.symm
  induction m with
  | nil => simp [lookupA, hnb]
  | cons p t ih =>
    by_cases hk1 : p.1 = k'
    · simp [lookupA, hk1]
    · have hk1b : (p.1 == k') = false := by simp [hk1]
      simp only [List.cons_append, lookupA, hk1b, Bool.false_eq_true,
        if_false]
      exact ih

theorem lookupA_setAssoc_ne {κ α : Type} [BEq κ] [LawfulBEq κ]
    (m : List (κ × α)) (k k' : κ) (v : α) (hne : k' ≠ k) :
    lookupA (setAssoc m k v) k' = lookupA m k' := by
  unfold setAssoc
  split
  · exact lookupA_map_replace_ne m k k' v hne
  · exact lookupA_append_single_ne m k k' v hne

/-! ### Bounded config resolver (resolveConfig, toBoundedInt) -/

/-- A raw numeric config field as it arrives from JSON: absent, not a finite
number (wrong runtime type, NaN or an infinity — everything for which the
source test `typeof value === "number" && Number.isFinite(value)` is false),
or a finite number represented by its Math.trunc image. -/
inductive RawNum
  | missing
  | notNumeric
  | num (n : Int)
  deriving DecidableEq, Repr

/-- toBoundedInt from the source.  A non-finite value falls back to the
(integral) default; a finite value is truncated (already reflected in the
RawNum.num representation) and clamped to [lo, hi] via
Math.min(hi, Math.max(lo, n)).  The source's second `Number.isFinite`
recheck after Math.trunc can never fire for a finite candidate and has no
counterpart here.  The source default for the upper bound is
Number.MAX_SAFE_INTEGER; every call site modelled in this file passes the
bound explicitly. -/
def toBoundedInt (value : RawNum) (fallback lo hi : Int) : Int :=
  let candidate : Int :=
    match value with
    | .num n => n
    | _ => fallback
  min hi (max lo candidate)

/-- The raw settings document (RalphConfig in the source), restricted to the
defaulted/clamped fields.  The string-valued fields (statusVerbosity,
reviewerOutputDir, agentMdPath) and the verify command are resolved by
trivial defaulting that no claim concerns; they are omitted. -/
structure RawConfig where
  enabled : Option Bool
  autoStartOnMainIdle : Option Bool
  maxAttempts : RawNum
  heartbeatMinutes : RawNum
  verifyTimeoutMinutes : RawNum
  gateDestructiveToolsUntilContextLoaded : Option Bool
  maxRlmSliceLines : RawNum
  requireGrepBeforeLargeSlice : Option Bool
  grepRequiredThresholdLines : RawNum
  subAgentEnabled : Option Bool
  maxSubAgents : RawNum
  maxConversationLines : RawNum
  conversationArchiveCount : RawNum
  reviewerEnabled : Option Bool
  reviewerRequireExplicitReady : Option Bool
  reviewerMaxRunsPerAttempt : RawNum
  deriving DecidableEq, Repr

/-- The fully-defaulted, range-clamped configuration (ResolvedConfig in the
source), restricted to the same fields as RawConfig above. -/
structure ResolvedConfig where
  enabled : Bool
  autoStartOnMainIdle : Bool
  maxAttempts : Int
  heartbeatMinutes : Int
  verifyTimeoutMinutes : Int
  gateDestructiveToolsUntilContextLoaded : Bool
  maxRlmSliceLines : Int
  requireGrepBeforeLargeSlice : Bool
  grepRequiredThresholdLines : Int
  subAgentEnabled : Bool
  maxSubAgents : Int
  maxConversationLines : Int
  conversationArchiveCount : Int
  reviewerEnabled : Bool
  reviewerRequireExplicitReady : Bool
  reviewerMaxRunsPerAttempt : Int
  deriving DecidableEq, Repr

/-- CONFIG_DEFAULTS from the source (same field restriction). -/
def CONFIG_DEFAULTS : ResolvedConfig :=
  { enabled := true
    autoStartOnMainIdle := false
    maxAttempts := 20
    heartbeatMinutes := 15
    verifyTimeoutMinutes := 0
    gateDestructiveToolsUntilContextLoaded := true
    maxRlmSliceLines := 200
    requireGrepBeforeLargeSlice := true
    grepRequiredThresholdLines := 120
    subAgentEnabled := true
    maxSubAgents := 5
    maxConversationLines := 1200
    conversationArchiveCount := 3
    reviewerEnabled := false
    reviewerRequireExplicitReady := true
    reviewerMaxRunsPerAttempt := 1 }

/-- resolveConfig from the source: maxRlmSliceLines is resolved first, and
the resolved value is then used as the upper clamp bound for
grepRequiredThresholdLines. -/
def resolveConfig (raw : RawConfig) : ResolvedConfig :=
  let maxRlmSliceLines :=
    toBoundedInt raw.maxRlmSliceLines CONFIG_DEFAULTS.maxRlmSliceLines 10 2000
  let grepRequiredThresholdLines :=
    toBoundedInt raw.grepRequiredThresholdLines
      CONFIG_DEFAULTS.grepRequiredThresholdLines 1 maxRlmSliceLines
  { enabled := raw.enabled.getD CONFIG_DEFAULTS.enabled
    autoStartOnMainIdle :=
      raw.autoStartOnMainIdle.getD CONFIG_DEFAULTS.autoStartOnMainIdle
    maxAttempts := toBoundedInt raw.maxAttempts CONFIG_DEFAULTS.maxAttempts 1 500
    heartbeatMinutes :=
      toBoundedInt raw.heartbeatMinutes CONFIG_DEFAULTS.heartbeatMinutes 1 240
    verifyTimeoutMinutes :=
      toBoundedInt raw.verifyTimeoutMinutes CONFIG_DEFAULTS.verifyTimeoutMinutes 0 240
    gateDestructiveToolsUntilContextLoaded :=
      raw.gateDestructiveToolsUntilContextLoaded.getD
        CONFIG_DEFAULTS.gateDestructiveToolsUntilContextLoaded
    maxRlmSliceLines := maxRlmSliceLines
    requireGrepBeforeLargeSlice :=
      raw.requireGrepBeforeLargeSlice.getD CONFIG_DEFAULTS.requireGrepBeforeLargeSlice
    grepRequiredThresholdLines := grepRequiredThresholdLines
    subAgentEnabled := raw.subAgentEnabled.getD CONFIG_DEFAULTS.subAgentEnabled
    maxSubAgents := toBoundedInt raw.maxSubAgents CONFIG_DEFAULTS.maxSubAgents 1 50
    maxConversationLines :=
      toBoundedInt raw.maxConversationLines CONFIG_DEFAULTS.maxConversationLines 200 20000
    conversationArchiveCount :=
      toBoundedInt raw.conversationArchiveCount CONFIG_DEFAULTS.conversationArchiveCount 1 20
    reviewerEnabled := raw.reviewerEnabled.getD CONFIG_DEFAULTS.reviewerEnabled
    reviewerRequireExplicitReady :=
      raw.reviewerRequireExplicitReady.getD CONFIG_DEFAULTS.reviewerRequireExplicitReady
    reviewerMaxRunsPerAttempt :=
      toBoundedInt raw.reviewerMaxRunsPerAttempt
        CONFIG_DEFAULTS.reviewerMaxRunsPerAttempt 1 20 }

theorem toBoundedInt_le_hi (value : RawNum) (fallback lo hi : Int) :
    toBoundedInt value fallback lo hi ≤ hi := by
  unfold toBoundedInt
  exact min_le_left _ _

theorem lo_le_toBoundedInt (value : RawNum) (fallback lo hi : Int)
    (h : lo ≤ hi) : lo ≤ toBoundedInt value fallback lo hi := by
  unfold toBoundedInt
  exact le_min h (le_max_left _ _)

/-- C7: for every raw configuration input — including missing, non-numeric
and out-of-range values, and including inputs whose
grepRequiredThresholdLines exceeds maxRlmSliceLines — the resolved
configuration satisfies grepRequiredThresholdLines ≤ maxRlmSliceLines,
with maxRlmSliceLines clamped into [10, 2000] and maxAttempts clamped
into [1, 500]. -/
theorem resolveConfig_clamps (raw : RawConfig) :
    (resolveConfig raw).grepRequiredThresholdLines
        ≤ (resolveConfig raw).maxRlmSliceLines
      ∧ 10 ≤ (resolveConfig raw).maxRlmSliceLines
      ∧ (resolveConfig raw).maxRlmSliceLines ≤ 2000
      ∧ 1 ≤ (resolveConfig raw).maxAttempts
      ∧ (resolveConfig raw).maxAttempts ≤ 500 := by
  refine ⟨?_, ?_, ?_, ?_, ?_⟩
  · exact toBoundedInt_le_hi _ _ _ _
  · exact lo_le_toBoundedInt _ _ _ _ (by norm_num)
  · exact toBoundedInt_le_hi _ _ _ _
  · exact lo_le_toBoundedInt _ _ _ _ (by norm_num)
  · exact toBoundedInt_le_hi _ _ _ _

/-! ### Protocol gate (tool.execute.before hook) -/

/-- DESTRUCTIVE_TOOLS from the source. -/
def DESTRUCTIVE_TOOLS : List String :=
  ["write", "edit", "bash", "delete", "move", "rename"]

/-- SAFE_TOOLS from the source. -/
def SAFE_TOOLS : List String :=
  ["ralph_load_context", "rlm_grep", "rlm_slice",
   "subagent_peek", "ralph_verify",
   "ralph_report", "ralph_ask", "ralph_respond"]

/-- Outcome of the pre-tool gate: either the call is allowed through, or it
is rejected by throwing the configured context-gate error
(templates.contextGateError). -/
inductive GateDecision
  | allow
  | rejectContextGate
  deriving DecidableEq, Repr

/-- The tool.execute.before hook from the source.  The two ways a call can
carry no known session (no session id on the input, or a session id absent
from sessionMap) both collapse to `state = none` here; in both the gate
allows the call.  gateEnabled is cfg.gateDestructiveToolsUntilContextLoaded. -/
def toolExecuteBefore (gateEnabled : Bool) (state : Option SessionState)
    (toolName : String) : GateDecision :=
  if gateEnabled = false then .allow else
  match state with
  | none => .allow
  | some st =>
    if st.role ≠ Role.worker ∧ st.role ≠ Role.subagent then .allow else
    if toolName = "" then .allow else
    if toolName ∈ SAFE_TOOLS then .allow else
    if toolName ∉ DESTRUCTIVE_TOOLS then .allow else
    if st.loadedContext = false then .rejectContextGate else .allow

theorem destructive_not_safe (t : String) (h : t ∈ DESTRUCTIVE_TOOLS) :
    t ∉ SAFE_TOOLS ∧ t ≠ "" := by
  simp only [DESTRUCTIVE_TOOLS, List.mem_cons, List.not_mem_nil, or_false] at h
  rcases h with h | h | h | h | h | h <;> subst h <;> exact ⟨by decide, by decide⟩

/-- C4: the gate rejects a tool call exactly when gating is enabled, the
calling session's role is worker or subagent, the tool is in the destructive
set, and the session's context-loaded flag is still false; in every other
case (gate disabled, unknown or ungated role, safe or unlisted tool, or
context already loaded) the call is allowed through. -/
theorem gate_rejects_iff (gateEnabled : Bool) (state : Option SessionState)
    (toolName : String) :
    toolExecuteBefore gateEnabled state toolName = .rejectContextGate
      ↔ (gateEnabled = true
          ∧ ∃ st, state = some st
              ∧ (st.role = .worker ∨ st.role = .subagent)
              ∧ toolName ∈ DESTRUCTIVE_TOOLS
              ∧ st.loadedContext = false) := by
  constructor
  · intro h
    unfold toolExecuteBefore at h
    split at h
    · exact absurd h (by simp)
    · rename_i hg
      split at h
      · exact absurd h (by simp)
      · rename_i st
        refine ⟨by simpa using hg, st, rfl, ?_⟩
        split at h
        · exact absurd h (by simp)
        · rename_i hrole
          split at h
          · exact absurd h (by simp)
          · split at h
            · exact absurd h (by simp)
            · split at h
              · exact absurd h (by simp)
              · rename_i hdest
                split at h
                · rename_i hctx
                  refine ⟨?_, by simpa using hdest, hctx⟩
                  rcases Decidable.not_and_iff_or_not.mp hrole with h1 | h1
                  · exact Or.inl (by simpa using h1)
                  · exact Or.inr (by simpa using h1)
                · exact absurd h (by simp)
  · rintro ⟨hg, st, rfl, hrole, hdest, hctx⟩
    have hns := destructive_not_safe toolName hdest
    unfold toolExecuteBefore
    rw [hg]
    simp only [Bool.true_eq_false, if_false]
    have hrole2 : ¬(st.role ≠ Role.worker ∧ st.role ≠ Role.subagent) := by
      rcases hrole with h | h <;> simp [h]
    rw [if_neg hrole2, if_neg hns.2, if_neg (by simpa using hns.1),
      if_neg (by simpa using hdest), if_pos hctx]

/-- Concrete instance of gate_rejects_iff: a worker session that has not
loaded context is blocked from the write tool. -/
theorem gate_rejects_iff_witness :
    toolExecuteBefore true (some (freshSession .worker 1)) "write"
      = .rejectContextGate :=
  (gate_rejects_iff true (some (freshSession .worker 1)) "write").mpr
    ⟨rfl, freshSession .worker 1, rfl, Or.inl rfl, by decide, rfl⟩

/-! ### Sub-task fan-out: tool subagent_spawn -/

/-- The side effects subagent_spawn performs, in order, on its success path:
bootstrap the sub-agent's state documents (bootstrapSubAgent — file writes
under .opencode/agents/<name>/), create the child session via the session
host, register the child in sessionMap with role subagent and the parent's
attempt, send the initial prompt, and append the record to the caller's
subAgents list. -/
inductive SpawnEff
  | bootstrapDocs (name : String)
  | createSession
  | registerChild (sessionId : String) (attempt : Nat)
  | sendPrompt
  | recordTask (name : String)
  deriving DecidableEq, Repr

/-- The name charset test from the source, regex ^[a-zA-Z0-9_-]+$ :
nonempty, every character an ASCII letter, digit, underscore or hyphen. -/
def validSubAgentName (s : String) : Bool :=
  s ≠ "" && s.all (fun c => c.isAlpha || c.isDigit || c == '_' || c == '-')

/-- tool_subagent_spawn from the source.  Returns the ordered list of side
effects performed together with either the caller's updated session state
(success) or the thrown error message (abbreviated here; the source messages
interpolate the offending values).  All four rejection paths precede every
side effect, hence their effect list is empty.  childSessionId stands for
the id the session host returns from session.create. -/
def tool_subagent_spawn (cfg : ResolvedConfig) (st : SessionState)
    (name goal childSessionId : String) :
    List SpawnEff × Except String SessionState :=
  if cfg.subAgentEnabled = false then
    ([], .error "Sub-agents are disabled.")
  else if validSubAgentName name = false then
    ([], .error "Sub-agent name is invalid.")
  else if st.subAgents.any (fun a => a.name == name && a.status == .running) then
    ([], .error "Sub-agent with this name is already running.")
  else if cfg.maxSubAgents ≤
      ((st.subAgents.filter (fun a => a.status == .running)).length : Int) then
    ([], .error "Max concurrent sub-agents reached.")
  else
    ([.bootstrapDocs name, .createSession,
      .registerChild childSessionId st.attempt, .sendPrompt, .recordTask name],
     .ok { st with
            subAgents := st.subAgents ++
              [{ sessionId := childSessionId, name := name, goal := goal,
                 status := .running }] })

/-- C6: a subagent_spawn call whose name contains a character outside
[a-zA-Z0-9_-] is rejected having performed no side effect — in particular
before any child session is created and before any sub-agent document is
written — and likewise a call is rejected with no side effect when a
sub-agent with that name is already running, or when the caller's count of
running sub-agents has reached the maxSubAgents cap. -/
theorem subagent_spawn_rejections (cfg : ResolvedConfig) (st : SessionState)
    (name goal childSessionId : String) :
    ((∃ c ∈ name.data, (c.isAlpha || c.isDigit || c == '_' || c == '-') = false) →
        (tool_subagent_spawn cfg st name goal childSessionId).1 = []
          ∧ ∃ e, (tool_subagent_spawn cfg st name goal childSessionId).2 = .error e)
      ∧ (st.subAgents.any (fun a => a.name == name && a.status == .running) = true →
          (tool_subagent_spawn cfg st name goal childSessionId).1 = []
            ∧ ∃ e, (tool_subagent_spawn cfg st name goal childSessionId).2 = .error e)
      ∧ (cfg.maxSubAgents ≤
            ((st.subAgents.filter (fun a => a.status == .running)).length : Int) →
          (tool_subagent_spawn cfg st name goal childSessionId).1 = []
            ∧ ∃ e, (tool_subagent_spawn cfg st name goal childSessionId).2 = .error e) := by
  refine ⟨?_, ?_, ?_⟩
  · rintro ⟨c, hc, hbad⟩
    have hinvalid : validSubAgentName name = false := by
      unfold validSubAgentName
      have : name.all (fun c => c.isAlpha || c.isDigit || c == '_' || c == '-') = false := by
        rw [Bool.eq_false_iff]
        intro hall
        rw [String.all_eq, List.all_eq_true] at hall
        have := hall c hc
        rw [hbad] at this
        exact Bool.false_ne_true this
      simp [this]
    unfold tool_subagent_spawn
    by_cases hen : cfg.subAgentEnabled = false
    · rw [if_pos hen]; exact ⟨rfl, _, rfl⟩
    · rw [if_neg hen, if_pos hinvalid]; exact ⟨rfl, _, rfl⟩
  · intro hrun
    unfold tool_subagent_spawn
    by_cases hen : cfg.subAgentEnabled = false
    · rw [if_pos hen]; exact ⟨rfl, _, rfl⟩
    · rw [if_neg hen]
      by_cases hv : validSubAgentName name = false
      · rw [if_pos hv]; exact ⟨rfl, _, rfl⟩
      · rw [if_neg hv, if_pos hrun]; exact ⟨rfl, _, rfl⟩
  · intro hcap
    unfold tool_subagent_spawn
    by_cases hen : cfg.subAgentEnabled = false
    · rw [if_pos hen]; exact ⟨rfl, _, rfl⟩
    · rw [if_neg hen]
      by_cases hv : validSubAgentName name = false
      · rw [if_pos hv]; exact ⟨rfl, _, rfl⟩
      · rw [if_neg hv]
        by_cases hr :
            (st.subAgents.any fun a => a.name == name && a.status == .running) = true
        · rw [if_pos hr]; exact ⟨rfl, _, rfl⟩
        · rw [if_neg hr, if_pos hcap]; exact ⟨rfl, _, rfl⟩

/-- Concrete instance of subagent_spawn_rejections: the name "../x" (its
first character being a path separator component dot) is rejected with no
session created and no document written. -/
theorem subagent_spawn_rejections_witness :
    (tool_subagent_spawn CONFIG_DEFAULTS (freshSession .worker 1)
        "../x" "goal" "child-1").1 = []
      ∧ ∃ e, (tool_subagent_spawn CONFIG_DEFAULTS (freshSession .worker 1)
          "../x" "goal" "child-1").2 = .error e :=
  (subagent_spawn_rejections CONFIG_DEFAULTS (freshSession .worker 1)
      "../x" "goal" "child-1").1 ⟨'.', by decide, by decide⟩

/-! ### Blocking Q&A channel: tool_ralph_respond -/

/-- One pending question (QuestionRecord in the source); the asking role,
attempt, optional context and askedAt timestamp are omitted (only the id is
matched on and only the question text is echoed in diagnostics). -/
structure QuestionRecord where
  id : String
  question : String
  deriving DecidableEq, Repr

/-- The durable pending_input.json document: a list of questions and a
response dictionary keyed by question id.  A response's respondedAt
timestamp is omitted; only the answer text is observed. -/
structure PendingInputData where
  questions : List QuestionRecord
  responses : List (String × String)
  deriving DecidableEq, Repr

/-- Outcome of tool_ralph_respond.  unknownId is the thrown error; its
payload models the diagnostic enumeration of currently-unanswered question
ids which the source renders into the message text.  updatedExisting is the
success return noting the prior answer was superseded; recordedNew is the
plain success return.  Both carry the rewritten document. -/
inductive RespondOutcome
  | unknownId (pendingUnanswered : List String)
  | updatedExisting (d : PendingInputData)
  | recordedNew (d : PendingInputData)
  deriving DecidableEq, Repr

/-- tool_ralph_respond from the source. -/
def tool_ralph_respond (data : PendingInputData) (id answer : String) :
    RespondOutcome :=
  match data.questions.find? (fun q => q.id == id) with
  | none =>
      .unknownId ((data.questions.filter
        (fun q => (lookupA data.responses q.id).isNone)).map (fun q => q.id))
  | some _ =>
      if (lookupA data.responses id).isSome then
        .updatedExisting { data with responses := setAssoc data.responses id answer }
      else
        .recordedNew { data with responses := setAssoc data.responses id answer }

/-- C8: responding to an id that is not among the stored questions fails
with a diagnostic enumerating exactly the currently-unanswered question
ids; responding to a known id that already has an answer overwrites it
(last write wins) and succeeds reporting the supersession, leaving every
other response unchanged; responding to a known id with no answer yet
records the first answer, again leaving every other response unchanged. -/
theorem respond_behaviour (data : PendingInputData) (id answer : String) :
    ((∀ q ∈ data.questions, q.id ≠ id) →
        ∃ l, tool_ralph_respond data id answer = .unknownId l
          ∧ ∀ q ∈ data.questions,
              (q.id ∈ l ↔ lookupA data.responses q.id = none))
      ∧ ((∃ q ∈ data.questions, q.id = id) →
          (lookupA data.responses id).isSome = true →
          ∃ d, tool_ralph_respond data id answer = .updatedExisting d
            ∧ lookupA d.responses id = some answer
            ∧ ∀ k, k ≠ id → lookupA d.responses k = lookupA data.responses k)
      ∧ ((∃ q ∈ data.questions, q.id = id) →
          (lookupA data.responses id).isSome = false →
          ∃ d, tool_ralph_respond data id answer = .recordedNew d
            ∧ lookupA d.responses id = some answer
            ∧ ∀ k, k ≠ id → lookupA d.responses k = lookupA data.responses k) := by
  refine ⟨?_, ?_, ?_⟩
  · intro h
    have hfind : data.questions.find? (fun q => q.id == id) = none := by
      rw [List.find?_eq_none]
      intro q hq
      simpa using h q hq
    unfold tool_ralph_respond
    rw [hfind]
    refine ⟨_, rfl, ?_⟩
    intro q hq
    constructor
    · intro hmem
      rcases List.mem_map.mp hmem with ⟨q2, hq2mem, hq2id⟩
      rcases List.mem_filter.mp hq2mem with ⟨_, hq2none⟩
      rw [← hq2id]
      exact Option.isNone_iff_eq_none.mp (by simpa using hq2none)
    · intro hnone
      exact List.mem_map.mpr
        ⟨q, List.mem_filter.mpr ⟨hq, by simp [hnone]⟩, rfl⟩
  · rintro ⟨q, hqmem, hqid⟩ hres
    have hfind : (data.questions.find? (fun q => q.id == id)).isSome := by
      rw [List.find?_isSome]
      exact ⟨q, hqmem, by simp [hqid]⟩
    rcases Option.isSome_iff_exists.mp hfind with ⟨q2, hq2⟩
    unfold tool_ralph_respond
    rw [hq2, if_pos hres]
    exact ⟨_, rfl, lookupA_setAssoc_self _ _ _,
      fun k hk => lookupA_setAssoc_ne _ _ _ _ hk⟩
  · rintro ⟨q, hqmem, hqid⟩ hres
    have hfind : (data.questions.find? (fun q => q.id == id)).isSome := by
      rw [List.find?_isSome]
      exact ⟨q, hqmem, by simp [hqid]⟩
    rcases Option.isSome_iff_exists.mp hfind with ⟨q2, hq2⟩
    unfold tool_ralph_respond
    rw [hq2, if_neg (by simp [hres])]
    exact ⟨_, rfl, lookupA_setAssoc_self _ _ _,
      fun k hk => lookupA_setAssoc_ne _ _ _ _ hk⟩

/-- Concrete instance of respond_behaviour: answering the known question
ask-1 a second time overwrites the stored answer and reports supersession. -/
theorem respond_behaviour_witness :
    ∃ d, tool_ralph_respond
        { questions := [{ id := "ask-1", question := "q" }],
          responses := [("ask-1", "old")] } "ask-1" "new"
        = .updatedExisting d
      ∧ lookupA d.responses "ask-1" = some "new"
      ∧ ∀ k, k ≠ "ask-1" →
          lookupA d.responses k = lookupA [("ask-1", "old")] k :=
  (respond_behaviour
      { questions := [{ id := "ask-1", question := "q" }],
        responses := [("ask-1", "old")] } "ask-1" "new").2.1
    ⟨{ id := "ask-1", question := "q" }, by simp, rfl⟩ (by decide)

/-! ### Review gating subsystem -/

/-- The reviewer-gating slice of the singleton SupervisorState: the global
attempt counter, the per-attempt review-request notes and run counters, and
the active-reviewer fields.  activeReviewerSessionId is omitted (never
branched on by the gating logic). -/
structure ReviewerSup where
  attempt : Nat
  reviewRequested : List (Nat × String)
  reviewerRuns : List (Nat × Int)
  activeReviewerName : Option String
  activeReviewerAttempt : Option Nat
  activeReviewerOutputPath : Option String
  deriving DecidableEq, Repr

/-- getReviewerRuns from the source: supervisor.reviewerRuns[attempt] ?? 0. -/
def getReviewerRuns (sup : ReviewerSup) (attempt : Nat) : Int :=
  (lookupA sup.reviewerRuns attempt).getD 0

/-- The attempt an acting session resolves to, shared by
tool_ralph_request_review and tool_ralph_run_reviewer:
st.attempt > 0 ? st.attempt : Math.max(1, supervisor.attempt). -/
def effectiveAttempt (stAttempt supAttempt : Nat) : Nat :=
  if stAttempt > 0 then stAttempt else max 1 supAttempt

/-- tool_ralph_request_review composed with markReviewRequested: records
the note (args.note?.trim() || "ready") under the resolved attempt and
returns that attempt. -/
def tool_ralph_request_review (sup : ReviewerSup) (stAttempt : Nat)
    (note : Option String) : ReviewerSup × Nat :=
  let attempt := effectiveAttempt stAttempt sup.attempt
  let note2 : String :=
    match note with
    | some s => if s.trim == "" then "ready" else s.trim
    | none => "ready"
  ({ sup with reviewRequested := setAssoc sup.reviewRequested attempt note2 },
   attempt)

/-- Outcome of tool_ralph_run_reviewer.  The three rejected* constructors
are the structured ok:false returns with reasons "reviewer disabled",
"review not requested" and "review run limit reached"; waitedForActive is
the wait-for-completion path on an already-active reviewer;
reportedAlreadyRunning is the non-waiting report; startedReviewer is the
path that bootstraps and starts a fresh reviewer sub-agent for the resolved
attempt. -/
inductive ReviewerOutcome
  | rejectedDisabled
  | rejectedNotRequested
  | rejectedRunLimit
  | waitedForActive (name : String) (attempt : Nat) (outputPath : String)
  | reportedAlreadyRunning (name : String)
  | startedReviewer (attempt : Nat)
  deriving DecidableEq, Repr

/-- The gating prefix of tool_ralph_run_reviewer from the source.  JS
truthiness of the checked fields is modelled exactly: a recorded request
note counts as absent when it is the empty string, and the active-reviewer
output path and attempt count as absent when empty respectively zero
(the source only ever stores nonempty names/paths and attempts ≥ 1).
What happens after the started/waited decision (bootstrap, prompt, report
write, counter increment) is not needed by any claim and is represented by
the outcome constructors. -/
def tool_ralph_run_reviewer (cfg : ResolvedConfig) (sup : ReviewerSup)
    (stAttempt : Nat) (force wait : Option Bool) : ReviewerOutcome :=
  let waitForDone : Bool := !(wait == some false)
  let forceB : Bool := force == some true
  if !cfg.reviewerEnabled && !forceB then .rejectedDisabled else
  let attempt := effectiveAttempt stAttempt sup.attempt
  let requested := lookupA sup.reviewRequested attempt
  let runs := getReviewerRuns sup attempt
  let requestedFalsy : Bool :=
    match requested with
    | some s => s == ""
    | none => true
  if !forceB && cfg.reviewerRequireExplicitReady && requestedFalsy then
    .rejectedNotRequested
  else if !forceB && decide (cfg.reviewerMaxRunsPerAttempt ≤ runs) then
    .rejectedRunLimit
  else
    match sup.activeReviewerName with
    | some n =>
        let hasOut : Bool :=
          match sup.activeReviewerOutputPath with
          | some p => p != ""
          | none => false
        let hasAtt : Bool :=
          match sup.activeReviewerAttempt with
          | some a => a != 0
          | none => false
        if waitForDone && hasOut && hasAtt then
          .waitedForActive n (sup.activeReviewerAttempt.getD 0)
            (sup.activeReviewerOutputPath.getD "")
        else
          .reportedAlreadyRunning n
    | none => .startedReviewer attempt

/-- C9: a non-forced ralph_run_reviewer call is rejected when the reviewer
is disabled; rejected with the "not requested" reason when
reviewerRequireExplicitReady holds and no request note is recorded for the
resolved attempt; rejected with the run-limit reason when the attempt's
completed run count has reached reviewerMaxRunsPerAttempt; when a reviewer
is already active it waits for it unless wait is explicitly false, in which
case it reports it as already running; and after ralph_request_review for
the attempt the same non-forced call proceeds to start a reviewer. -/
theorem run_reviewer_gating (cfg : ResolvedConfig) (sup : ReviewerSup)
    (stAttempt : Nat) (force wait : Option Bool) :
    (force ≠ some true → cfg.reviewerEnabled = false →
        tool_ralph_run_reviewer cfg sup stAttempt force wait = .rejectedDisabled)
      ∧ (force ≠ some true → cfg.reviewerEnabled = true →
          cfg.reviewerRequireExplicitReady = true →
          (lookupA sup.reviewRequested (effectiveAttempt stAttempt sup.attempt) = none
            ∨ lookupA sup.reviewRequested (effectiveAttempt stAttempt sup.attempt)
                = some "") →
          tool_ralph_run_reviewer cfg sup stAttempt force wait
            = .rejectedNotRequested)
      ∧ (force ≠ some true → cfg.reviewerEnabled = true →
          (cfg.reviewerRequireExplicitReady = false
            ∨ ∃ s, lookupA sup.reviewRequested
                  (effectiveAttempt stAttempt sup.attempt) = some s ∧ s ≠ "") →
          cfg.reviewerMaxRunsPerAttempt
              ≤ getReviewerRuns sup (effectiveAttempt stAttempt sup.attempt) →
          tool_ralph_run_reviewer cfg sup stAttempt force wait
            = .rejectedRunLimit)
      ∧ (force ≠ some true → cfg.reviewerEnabled = true →
          (cfg.reviewerRequireExplicitReady = false
            ∨ ∃ s, lookupA sup.reviewRequested
                  (effectiveAttempt stAttempt sup.attempt) = some s ∧ s ≠ "") →
          getReviewerRuns sup (effectiveAttempt stAttempt sup.attempt)
              < cfg.reviewerMaxRunsPerAttempt →
          ∀ n p a, sup.activeReviewerName = some n →
            sup.activeReviewerOutputPath = some p → p ≠ "" →
            sup.activeReviewerAttempt = some a → a ≠ 0 →
            ((wait ≠ some false →
                tool_ralph_run_reviewer cfg sup stAttempt force wait
                  = .waitedForActive n a p)
              ∧ (wait = some false →
                  tool_ralph_run_reviewer cfg sup stAttempt force wait
                    = .reportedAlreadyRunning n)))
      ∧ (∀ note, force ≠ some true → cfg.reviewerEnabled = true →
          getReviewerRuns sup (effectiveAttempt stAttempt sup.attempt)
              < cfg.reviewerMaxRunsPerAttempt →
          sup.activeReviewerName = none →
          tool_ralph_run_reviewer cfg
              (tool_ralph_request_review sup stAttempt note).1 stAttempt force wait
            = .startedReviewer (effectiveAttempt stAttempt sup.attempt)) := by
  refine ⟨?_, ?_, ?_, ?_, ?_⟩
  · intro hforce hen
    have hf : (force == some true) = false := by simp [hforce]
    simp [tool_ralph_run_reviewer, hf, hen]
  · intro hforce hen hready hreq
    have hf : (force == some true) = false := by simp [hforce]
    rcases hreq with h | h <;>
      simp [tool_ralph_run_reviewer, hf, hen, hready, h]
  · intro hforce hen hreq hruns
    have hf : (force == some true) = false := by simp [hforce]
    have hd : decide (cfg.reviewerMaxRunsPerAttempt
        ≤ getReviewerRuns sup (effectiveAttempt stAttempt sup.attempt)) = true :=
      decide_eq_true hruns
    rcases hreq with h | ⟨s, hs, hsne⟩
    · simp [tool_ralph_run_reviewer, hf, hen, h, hd]
    · have hsb : (s == "") = false := by simp [hsne]
      simp [tool_ralph_run_reviewer, hf, hen, hs, hsb, hd]
  · intro hforce hen hreq hruns n p a hn hp hpne ha hane
    have hf : (force == some true) = false := by simp [hforce]
    have hd : decide (cfg.reviewerMaxRunsPerAttempt
        ≤ getReviewerRuns sup (effectiveAttempt stAttempt sup.attempt)) = false :=
      decide_eq_false (not_le.mpr hruns)
    have hpb : (p != "") = true := by simp [hpne]
    have hab : (a != 0) = true := by simp [hane]
    constructor
    · intro hwait
      have hw : (wait == some false) = false := by simp [hwait]
      rcases hreq with h | ⟨s, hs, hsne⟩
      · simp [tool_ralph_run_reviewer, hf, hen, h, hd, hn, hp, ha, hpb, hab, hw]
      · have hsb : (s == "") = false := by simp [hsne]
        simp [tool_ralph_run_reviewer, hf, hen, hs, hsb, hd, hn, hp, ha, hpb,
          hab, hw]
    · intro hwait
      have hw : (wait == some false) = true := by simp [hwait]
      rcases hreq with h | ⟨s, hs, hsne⟩
      · simp [tool_ralph_run_reviewer, hf, hen, h, hd, hn, hp, ha, hpb, hab, hw]
      · have hsb : (s == "") = false := by simp [hsne]
        simp [tool_ralph_run_reviewer, hf, hen, hs, hsb, hd, hn, hp, ha, hpb,
          hab, hw]
  · intro note hforce hen hruns hactive
    have hf : (force == some true) = false := by simp [hforce]
    have hnote : ∃ s, (tool_ralph_request_review sup stAttempt note).1.reviewRequested
        = setAssoc sup.reviewRequested (effectiveAttempt stAttempt sup.attempt) s
          ∧ s ≠ "" := by
      cases note with
      | none => exact ⟨"ready", rfl, by decide⟩
      | some s =>
        by_cases hs : s.trim == ""
        · refine ⟨"ready", ?_, by decide⟩
          simp [tool_ralph_request_review, hs]
        · refine ⟨s.trim, ?_, by simpa using hs⟩
          simp [tool_ralph_request_review, hs]
    rcases hnote with ⟨s, hset, hsne⟩
    have hlook : lookupA
        (tool_ralph_request_review sup stAttempt note).1.reviewRequested
        (effectiveAttempt stAttempt sup.attempt) = some s := by
      rw [hset]
      exact lookupA_setAssoc_self _ _ _
    have hsb : (s == "") = false := by simp [hsne]
    have hd : decide (cfg.reviewerMaxRunsPerAttempt
        ≤ getReviewerRuns sup (effectiveAttempt stAttempt sup.attempt)) = false :=
      decide_eq_false (not_le.mpr hruns)
    simp [tool_ralph_run_reviewer, tool_ralph_request_review, hf, hen,
      getReviewerRuns, hd, hactive] at hlook ⊢
    simp [hlook, hsb]
    have := hd
    simp [getReviewerRuns] at this
    simp [this]

/-- A resolved configuration with the reviewer turned on (all other fields
at their defaults, so reviewerRequireExplicitReady is true and the
per-attempt run limit is 1). -/
def cfgReviewerOn : ResolvedConfig :=
  { CONFIG_DEFAULTS with reviewerEnabled := true }

/-- Reviewer-gating supervisor state at attempt 1 with nothing requested,
no runs recorded and no active reviewer. -/
def supReviewerFresh : ReviewerSup :=
  { attempt := 1
    reviewRequested := []
    reviewerRuns := []
    activeReviewerName := none
    activeReviewerAttempt := none
    activeReviewerOutputPath := none }

/-- Concrete instance of run_reviewer_gating: with explicit readiness
required and no prior request, a non-forced run is rejected as not
requested; after ralph_request_review the same call starts a reviewer. -/
theorem run_reviewer_gating_witness :
    tool_ralph_run_reviewer cfgReviewerOn supReviewerFresh 1 none none
        = .rejectedNotRequested
      ∧ tool_ralph_run_reviewer cfgReviewerOn
          (tool_ralph_request_review supReviewerFresh 1 (some "go")).1 1 none none
        = .startedReviewer (effectiveAttempt 1 supReviewerFresh.attempt) :=
  ⟨(run_reviewer_gating cfgReviewerOn supReviewerFresh 1 none none).2.1
      (by decide) rfl rfl (Or.inl rfl),
   (run_reviewer_gating cfgReviewerOn supReviewerFresh 1 none none).2.2.2.2
      (some "go") (by decide) rfl (by decide) rfl⟩

/-! ### File-first reading: tool_rlm_slice -/

/-- The recent-grep test from tool_rlm_slice:
st.lastGrepAt && Date.now() - st.lastGrepAt < 5 * 60 * 1000.  A session
that never ran rlm_grep has no timestamp (the zero-timestamp falsy corner
cannot occur: the source only ever stores Date.now() values). -/
def recentGrep (lastGrepAt : Option Int) (now : Int) : Bool :=
  match lastGrepAt with
  | some t => decide (now - t < 300000)
  | none => false

/-- tool_rlm_slice from the source.  fileLines stands for the target file's
content split on line breaks (raw.split(/\r?\n/)); the JS slice
lines.slice(startLine - 1, endLine) is (drop (startLine - 1)).take span
with span = endLine - startLine + 1, identical element-for-element for the
schema-guaranteed startLine ≥ 1 (the tool schema requires both line numbers
to be integers ≥ 1).  Error messages are abbreviated. -/
def tool_rlm_slice (cfg : ResolvedConfig) (st : SessionState) (now : Int)
    (startLine endLine : Nat) (fileLines : List String) :
    Except String (List String) :=
  if endLine < startLine then .error "endLine must be >= startLine." else
  let span := endLine - startLine + 1
  if cfg.maxRlmSliceLines < (span : Int) then
    .error "Slice too large; use multiple smaller slices."
  else if cfg.requireGrepBeforeLargeSlice
      && decide ((cfg.grepRequiredThresholdLines : Int) ≤ (span : Int))
      && !recentGrep st.lastGrepAt now then
    .error "Slices at or above the threshold require a recent rlm_grep call."
  else
    .ok ((fileLines.drop (startLine - 1)).take span)

/-- C10: rlm_slice errors whenever endLine < startLine, whenever the
requested span endLine - startLine + 1 exceeds the resolved
maxRlmSliceLines, and — with requireGrepBeforeLargeSlice enabled — whenever
the span reaches grepRequiredThresholdLines without an rlm_grep call by the
same session in the previous 5 minutes; in every other case it returns the
requested 1-indexed inclusive line range of the file (for a range that lies
within the file, exactly the lines startLine..endLine). -/
theorem rlm_slice_behaviour (cfg : ResolvedConfig) (st : SessionState)
    (now : Int) (startLine endLine : Nat) (fileLines : List String) :
    (endLine < startLine →
        ∃ e, tool_rlm_slice cfg st now startLine endLine fileLines = .error e)
      ∧ (startLine ≤ endLine →
          cfg.maxRlmSliceLines < ((endLine - startLine + 1 : Nat) : Int) →
          ∃ e, tool_rlm_slice cfg st now startLine endLine fileLines = .error e)
      ∧ (startLine ≤ endLine →
          ((endLine - startLine + 1 : Nat) : Int) ≤ cfg.maxRlmSliceLines →
          cfg.requireGrepBeforeLargeSlice = true →
          (cfg.grepRequiredThresholdLines : Int)
              ≤ ((endLine - startLine + 1 : Nat) : Int) →
          recentGrep st.lastGrepAt now = false →
          ∃ e, tool_rlm_slice cfg st now startLine endLine fileLines = .error e)
      ∧ (startLine ≤ endLine →
          ((endLine - startLine + 1 : Nat) : Int) ≤ cfg.maxRlmSliceLines →
          (cfg.requireGrepBeforeLargeSlice = false
            ∨ ((endLine - startLine + 1 : Nat) : Int) < cfg.grepRequiredThresholdLines
            ∨ recentGrep st.lastGrepAt now = true) →
          tool_rlm_slice cfg st now startLine endLine fileLines
              = .ok ((fileLines.drop (startLine - 1)).take (endLine - startLine + 1))
            ∧ (1 ≤ startLine → endLine ≤ fileLines.length →
                ((fileLines.drop (startLine - 1)).take
                    (endLine - startLine + 1)).length = endLine - startLine + 1
                  ∧ ∀ i, i < endLine - startLine + 1 →
                      ((fileLines.drop (startLine - 1)).take
                          (endLine - startLine + 1))[i]?
                        = fileLines[startLine - 1 + i]?)) := by
  refine ⟨?_, ?_, ?_, ?_⟩
  · intro h
    unfold tool_rlm_slice
    rw [if_pos h]
    exact ⟨_, rfl⟩
  · intro h1 h2
    unfold tool_rlm_slice
    rw [if_neg (not_lt.mpr h1), if_pos h2]
    exact ⟨_, rfl⟩
  · intro h1 h2 hgr h4 h5
    have hcond : (cfg.requireGrepBeforeLargeSlice
        && decide ((cfg.grepRequiredThresholdLines : Int)
            ≤ ((endLine - startLine + 1 : Nat) : Int))
        && !recentGrep st.lastGrepAt now) = true := by
      rw [hgr, decide_eq_true h4, h5]
      rfl
    unfold tool_rlm_slice
    rw [if_neg (not_lt.mpr h1), if_neg (not_lt.mpr h2), if_pos hcond]
    exact ⟨_, rfl⟩
  · intro h1 h2 h3
    have hcond : (cfg.requireGrepBeforeLargeSlice
        && decide ((cfg.grepRequiredThresholdLines : Int)
            ≤ ((endLine - startLine + 1 : Nat) : Int))
        && !recentGrep st.lastGrepAt now) = false := by
      rcases h3 with h | h | h
      · rw [h]; rfl
      · rw [decide_eq_false (not_le.mpr h)]
        simp
      · rw [h]; simp
    refine ⟨?_, ?_⟩
    · unfold tool_rlm_slice
      rw [if_neg (not_lt.mpr h1), if_neg (not_lt.mpr h2), if_neg
        (by rw [hcond]; exact Bool.false_ne_true)]
    · intro hs1 hlen
      constructor
      · rw [List.length_take, List.length_drop]
        omega
      · intro i hi
        rw [List.getElem?_take_of_lt hi, List.getElem?_drop]

/-- Concrete instance of rlm_slice_behaviour: with the default config, a
3-line slice of a 4-line file returns exactly lines 2..4. -/
theorem rlm_slice_behaviour_witness :
    tool_rlm_slice CONFIG_DEFAULTS (freshSession .worker 1) 0 2 4
        ["l1", "l2", "l3", "l4"]
      = .ok ((["l1", "l2", "l3", "l4"].drop 1).take 3) :=
  ((rlm_slice_behaviour CONFIG_DEFAULTS (freshSession .worker 1) 0 2 4
      ["l1", "l2", "l3", "l4"]).2.2.2 (by decide) (by decide)
    (Or.inr (Or.inl (by decide)))).1

/-! ### Supervisor orchestration state machine

The singleton SupervisorState together with sessionMap, and the handlers and
tools that drive the attempt loop.  The reviewer-gating fields of
SupervisorState are modelled separately above (ReviewerSup); no claim
couples them to the loop fields.  Side effects are emitted as OAction
values; purely observational notifications, toasts and log appends are
omitted, as are the heartbeat warnings (they only emit notifications and
refresh the omitted lastProgressAt timestamps). -/

/-- The three-valued verification verdict parsed by runAndParseVerify. -/
inductive Verdict
  | pass
  | fail
  | unknown
  deriving DecidableEq, Repr

/-- The loop slice of the singleton SupervisorState plus sessionMap. -/
structure OrchState where
  sessions : List (String × SessionState)
  sessionId : Option String
  attempt : Nat
  currentRalphSessionId : Option String
  currentWorkerSessionId : Option String
  done : Bool
  paused : Bool
  lastMainIdleAt : Option Int
  deriving DecidableEq, Repr

/-- The supervisor state at plugin startup. -/
def initialSupervisorState : OrchState :=
  { sessions := []
    sessionId := none
    attempt := 0
    currentRalphSessionId := none
    currentWorkerSessionId := none
    done := false
    paused := false
    lastMainIdleAt := none }

/-- Observable side effects of the orchestrator: running the verification
command (runAndParseVerify, recording the verdict it returned), writing the
completion marker document (templates.doneFileContent into
AGENT_CONTEXT_FOR_NEXT_RALPH.md), the rolloverState document writes for a
finished attempt, spawning a strategist or worker session (with its fresh
session id and attempt number), and the two warnings no claim depends on
further. -/
inductive OAction
  | ranVerify (verdict : Verdict)
  | wroteDoneMarker
  | rolledOverState (attemptN : Nat) (verdict : Verdict)
  | spawnedRalph (id : String) (attempt : Nat)
  | spawnedWorker (id : String) (attempt : Nat)
  | warnedNoWorkerSpawned
  | warnedSetupNotReady
  deriving DecidableEq, Repr

/-- spawnRlmWorker from the source: registers the fresh worker session id
in sessionMap (before its first prompt) and tracks it as the current
worker.  workerId stands for the id returned by session.create. -/
def spawnRlmWorker (s : OrchState) (attempt : Nat) (workerId : String) :
    OrchState × List OAction :=
  ({ s with
      currentWorkerSessionId := some workerId
      sessions := setAssoc s.sessions workerId (freshSession .worker attempt) },
   [.spawnedWorker workerId attempt])

/-- spawnRalphSession from the source: registers the fresh strategist
session id in sessionMap and tracks it as the current strategist. -/
def spawnRalphSession (s : OrchState) (attempt : Nat) (ralphId : String) :
    OrchState × List OAction :=
  ({ s with
      currentRalphSessionId := some ralphId
      sessions := setAssoc s.sessions ralphId (freshSession .ralph attempt) },
   [.spawnedRalph ralphId attempt])

/-- tool_ralph_spawn_worker_impl from the source: callable only from a
session registered with the ralph role, at most once per such session
(the workerSpawned flag is set before spawning).  An unregistered caller
falls under the role check (undefined role is not "ralph"). -/
def tool_ralph_spawn_worker_impl (s : OrchState) (caller workerId : String) :
    Except String (OrchState × List OAction) :=
  match lookupA s.sessions caller with
  | none => .error "ralph_spawn_worker can only be called from a Ralph strategist session."
  | some st =>
      if st.role ≠ Role.ralph then
        .error "ralph_spawn_worker can only be called from a Ralph strategist session."
      else if st.workerSpawned then
        .error "ralph_spawn_worker has already been called for this attempt."
      else
        .ok (spawnRlmWorker
          { s with sessions :=
              setAssoc s.sessions caller ({ st with workerSpawned := true }) }
          st.attempt workerId)

/-- handleWorkerIdle from the source.  verdict is the verdict
runAndParseVerify would return for this run (the external command's
contract); freshRalphId stands for the session id the host returns when the
next strategist is spawned.  Note the early returns: besides the
tracked-worker and done checks, the handler returns before running
verification unless cfg.enabled and cfg.autoStartOnMainIdle both hold. -/
def handleWorkerIdle (cfg : ResolvedConfig) (s : OrchState)
    (workerSessionId : String) (verdict : Verdict) (freshRalphId : String) :
    OrchState × List OAction :=
  if s.currentWorkerSessionId ≠ some workerSessionId then (s, []) else
  if s.done then (s, []) else
  if cfg.enabled = false then (s, []) else
  if cfg.autoStartOnMainIdle = false then (s, []) else
  let s1 := { s with currentWorkerSessionId := none }
  match verdict with
  | .pass => ({ s1 with done := true }, [.ranVerify verdict, .wroteDoneMarker])
  | _ =>
      if cfg.maxAttempts ≤ (s1.attempt : Int) then
        (s1, [.ranVerify verdict])
      else
        let s2 := { s1 with attempt := s1.attempt + 1 }
        let pr := spawnRalphSession s2 s2.attempt freshRalphId
        (pr.1, .ranVerify verdict :: .rolledOverState (s2.attempt - 1) verdict :: pr.2)

/-- handleRalphSessionIdle from the source: clears the active-strategist
field; warns when the strategist finished without delegating. -/
def handleRalphSessionIdle (s : OrchState) (ralphSessionId : String) :
    OrchState × List OAction :=
  if s.currentRalphSessionId ≠ some ralphSessionId then (s, []) else
  if s.done then (s, []) else
  let s1 := { s with currentRalphSessionId := none }
  match lookupA s.sessions ralphSessionId with
  | some st => if st.workerSpawned then (s1, []) else (s1, [.warnedNoWorkerSpawned])
  | none => (s1, [.warnedNoWorkerSpawned])

/-- The tail of handleMainIdle after debounce and binding: readiness check
(checkSetup, summarized by the setupReady flag), then attempt 1 spawn. -/
def mainIdleStart (s : OrchState) (setupReady : Bool) (freshRalphId : String) :
    OrchState × List OAction :=
  if setupReady = false then (s, [.warnedSetupNotReady])
  else spawnRalphSession { s with attempt := 1 } 1 freshRalphId

/-- handleMainIdle from the source: kicks off attempt 1 when the loop has
not started.  Guards in source order: done, paused, active strategist,
active worker, cfg.enabled, the 800 ms idle debounce (which records the new
idle timestamp), first-writer binding of the supervisor session, setup
readiness.  Note there is no cfg.autoStartOnMainIdle check here.  now is
Date.now() at the event; setupReady summarizes checkSetup(...).ready. -/
def handleMainIdle (cfg : ResolvedConfig) (s : OrchState) (sessionID : String)
    (now : Int) (setupReady : Bool) (freshRalphId : String) :
    OrchState × List OAction :=
  if s.done then (s, []) else
  if s.paused then (s, []) else
  if s.currentRalphSessionId.isSome then (s, []) else
  if s.currentWorkerSessionId.isSome then (s, []) else
  if cfg.enabled = false then (s, []) else
  if (match s.lastMainIdleAt with
      | some t => decide (now - t < 800)
      | none => false) then (s, []) else
  let s1 := { s with lastMainIdleAt := some now }
  match s1.sessionId with
  | none => mainIdleStart { s1 with sessionId := some sessionID } setupReady freshRalphId
  | some bound =>
      if bound ≠ sessionID then (s1, [])
      else mainIdleStart s1 setupReady freshRalphId

/-- tool_ralph_resume_supervision from the source: binds the caller if
unbound, clears the paused flag, and optionally restarts the loop when it
is not done and no strategist or worker is active. -/
def tool_ralph_resume_supervision (s : OrchState) (caller : String)
    (startLoop : Bool) (freshRalphId : String) : OrchState × List OAction :=
  let s1 := if s.sessionId = none then { s with sessionId := some caller } else s
  let s2 := { s1 with paused := false }
  if startLoop = false then (s2, []) else
  if s2.done then (s2, []) else
  if s2.currentRalphSessionId.isSome || s2.currentWorkerSessionId.isSome then
    (s2, [])
  else
    let s3 := { s2 with
      attempt := max 1 (if s2.attempt = 0 then 1 else s2.attempt) }
    spawnRalphSession s3 s3.attempt freshRalphId

/-- tool_ralph_create_supervisor_session from the source (side-effect
skeleton): first-writer binding with optional forced takeover, readiness
check, optional done-state reset, the already-running/already-done guard,
then attempt 1 spawn.  The structured ok:false returns are not distinguished
beyond producing no spawn. -/
def tool_ralph_create_supervisor_session (s : OrchState) (caller : String)
    (forceRebind startLoop restartIfDone setupReady : Bool)
    (freshRalphId : String) : OrchState × List OAction :=
  if s.sessionId.isSome && !(s.sessionId == some caller) && !forceRebind then
    (s, [])
  else
    let s1 := { s with
      sessionId := some caller
      paused := false }
    if setupReady = false then (s1, [.warnedSetupNotReady]) else
    if startLoop = false then (s1, []) else
    let s2 :=
      if s1.done && restartIfDone then
        { s1 with
          done := false
          paused := false
          currentRalphSessionId := none
          currentWorkerSessionId := none }
      else s1
    if s2.currentRalphSessionId.isSome || s2.currentWorkerSessionId.isSome
        || s2.done then
      (s2, [])
    else
      spawnRalphSession { s2 with attempt := 1 } 1 freshRalphId

/-- The orchestrator-facing events: a session.idle event (carrying the
verdict the verification command would produce if run, the fresh session id
the host would hand out, the current time and the setup-readiness), and the
modelled tool calls.  The pause/end/reset tools and the remaining tools
never spawn sessions and are not needed by any claim. -/
inductive OEvent
  | sessionIdle (sid : String) (verdict : Verdict) (freshId : String)
      (now : Int) (setupReady : Bool)
  | callSpawnWorker (caller : String) (workerId : String)
  | callResumeSupervision (caller : String) (startLoop : Bool) (freshId : String)
  | callCreateSupervisorSession (caller : String)
      (forceRebind startLoop restartIfDone setupReady : Bool) (freshId : String)
  deriving DecidableEq, Repr

/-- One orchestrator step: the event subscription from the source routes a
session.idle event (after the done/paused guard) to the worker, strategist
or main handler by comparing the session id against the active-id fields;
a tool call runs the corresponding tool (a thrown tool error leaves the
supervisor state unchanged). -/
def step (cfg : ResolvedConfig) (s : OrchState) : OEvent → OrchState × List OAction
  | .sessionIdle sid verdict freshId now setupReady =>
      if s.done || s.paused then (s, [])
      else if s.currentWorkerSessionId = some sid then
        handleWorkerIdle cfg s sid verdict freshId
      else if s.currentRalphSessionId = some sid then
        handleRalphSessionIdle s sid
      else
        handleMainIdle cfg s sid now setupReady freshId
  | .callSpawnWorker caller workerId =>
      match tool_ralph_spawn_worker_impl s caller workerId with
      | .ok r => r
      | .error _ => (s, [])
  | .callResumeSupervision caller startLoop freshId =>
      tool_ralph_resume_supervision s caller startLoop freshId
  | .callCreateSupervisorSession caller forceRebind startLoop restartIfDone setupReady freshId =>
      tool_ralph_create_supervisor_session s caller forceRebind startLoop
        restartIfDone setupReady freshId

/-- The state after a step. -/
def stepState (cfg : ResolvedConfig) (s : OrchState) (e : OEvent) : OrchState :=
  (step cfg s e).1

/-- The states the orchestrator can reach from plugin startup under a fixed
resolved configuration. -/
inductive ReachableState (cfg : ResolvedConfig) : OrchState → Prop
  | init : ReachableState cfg initialSupervisorState
  | step {s : OrchState} (h : ReachableState cfg s) (e : OEvent) :
      ReachableState cfg (stepState cfg s e)

/-- The state after running a list of events from startup. -/
def runTrace (cfg : ResolvedConfig) (es : List OEvent) : OrchState :=
  es.foldl (stepState cfg) initialSupervisorState

theorem reachable_foldl (cfg : ResolvedConfig) (es : List OEvent)
    (s : OrchState) (h : ReachableState cfg s) :
    ReachableState cfg (es.foldl (stepState cfg) s) := by
  induction es generalizing s with
  | nil => exact h
  | cons e t ih => exact ih _ (ReachableState.step h e)

theorem reachable_runTrace (cfg : ResolvedConfig) (es : List OEvent) :
    ReachableState cfg (runTrace cfg es) :=
  reachable_foldl cfg es _ ReachableState.init

/-- A supervisor state in mid-loop: attempt 1, a tracked active worker
session "worker-1", supervision bound, not done, not paused. -/
def workerTrackedState : OrchState :=
  { sessions := [("worker-1", freshSession .worker 1)]
    sessionId := some "main-1"
    attempt := 1
    currentRalphSessionId := none
    currentWorkerSessionId := some "worker-1"
    done := false
    paused := false
    lastMainIdleAt := none }

/-- C1: evaluation of the code at the failing input.  Under the default
configuration (enabled = true, autoStartOnMainIdle = false — the manual
start mode the bundled getting-started guide prescribes), a session-idle
event for the tracked active worker with supervision neither done nor
paused leaves the state unchanged — the active-worker field is NOT cleared
and verification is NOT run (no action is emitted) — because
handleWorkerIdle returns early on the autoStartOnMainIdle flag, a flag the
plugin's own documentation ties to auto-starting attempt 1 on main-session
idle, not to the worker-idle verification step (and which handleMainIdle,
the function the flag is named after, never consults). -/
theorem worker_idle_inert_under_default_config :
    step CONFIG_DEFAULTS workerTrackedState
        (.sessionIdle "worker-1" .fail "ralph-2" 0 true)
      = (workerTrackedState, []) := by decide

/-- The default configuration with autoStartOnMainIdle switched on, under
which handleWorkerIdle reaches its verification logic. -/
def cfgAutoLoop : ResolvedConfig :=
  { CONFIG_DEFAULTS with autoStartOnMainIdle := true }

/-- C2: once handleWorkerIdle reaches verification (tracked worker, not
done, enabled and auto-start on): a pass verdict sets the done flag, writes
the completion marker and spawns nothing further, leaving the attempt
counter unchanged; a fail or unknown verdict with the attempt counter
already at or beyond maxAttempts only clears the worker field and runs
verification — no increment, no rollover, no spawn, done still false; a
fail or unknown verdict below the bound increments the attempt counter by
exactly one, rolls over the scratch documents for the finished attempt and
spawns a strategist for the new attempt number. -/
theorem worker_idle_verification_outcomes (cfg : ResolvedConfig)
    (s : OrchState) (wid : String) (verdict : Verdict) (freshRalphId : String)
    (htracked : s.currentWorkerSessionId = some wid)
    (hdone : s.done = false)
    (hen : cfg.enabled = true)
    (hauto : cfg.autoStartOnMainIdle = true) :
    (verdict = .pass →
        (handleWorkerIdle cfg s wid verdict freshRalphId).1.done = true
          ∧ OAction.wroteDoneMarker
              ∈ (handleWorkerIdle cfg s wid verdict freshRalphId).2
          ∧ (handleWorkerIdle cfg s wid verdict freshRalphId).1.attempt = s.attempt
          ∧ ∀ id a,
              OAction.spawnedRalph id a
                  ∉ (handleWorkerIdle cfg s wid verdict freshRalphId).2
                ∧ OAction.spawnedWorker id a
                  ∉ (handleWorkerIdle cfg s wid verdict freshRalphId).2)
      ∧ (verdict ≠ .pass → cfg.maxAttempts ≤ (s.attempt : Int) →
          (handleWorkerIdle cfg s wid verdict freshRalphId).1
              = { s with currentWorkerSessionId := none }
            ∧ (handleWorkerIdle cfg s wid verdict freshRalphId).2
              = [.ranVerify verdict])
      ∧ (verdict ≠ .pass → (s.attempt : Int) < cfg.maxAttempts →
          (handleWorkerIdle cfg s wid verdict freshRalphId).1.attempt
              = s.attempt + 1
            ∧ OAction.rolledOverState s.attempt verdict
                ∈ (handleWorkerIdle cfg s wid verdict freshRalphId).2
            ∧ OAction.spawnedRalph freshRalphId (s.attempt + 1)
                ∈ (handleWorkerIdle cfg s wid verdict freshRalphId).2) := by
  have h1 : ¬(s.currentWorkerSessionId ≠ some wid) := by simp [htracked]
  have h2 : ¬(s.done = true) := by simp [hdone]
  have h3 : ¬(cfg.enabled = false) := by simp [hen]
  have h4 : ¬(cfg.autoStartOnMainIdle = false) := by simp [hauto]
  refine ⟨?_, ?_, ?_⟩
  · intro hv
    subst hv
    simp [handleWorkerIdle, if_neg h1, if_neg h2, if_neg h3, if_neg h4]
  · intro hv hmax
    simp only [handleWorkerIdle, if_neg h1, if_neg h2, if_neg h3, if_neg h4]
    cases verdict with
    | pass => exact absurd rfl hv
    | fail =>
      rw [if_pos hmax]
      exact ⟨rfl, rfl⟩
    | unknown =>
      rw [if_pos hmax]
      exact ⟨rfl, rfl⟩
  · intro hv hlt
    have hmax : ¬(cfg.maxAttempts ≤ (s.attempt : Int)) := not_le.mpr hlt
    simp only [handleWorkerIdle, if_neg h1, if_neg h2, if_neg h3, if_neg h4]
    cases verdict with
    | pass => exact absurd rfl hv
    | fail =>
      rw [if_neg hmax]
      simp [spawnRalphSession]
    | unknown =>
      rw [if_neg hmax]
      simp [spawnRalphSession]

/-- Concrete instance of worker_idle_verification_outcomes: at attempt 1 of
maxAttempts 20, a pass verdict marks the loop done and a fail verdict
advances the attempt counter to 2. -/
theorem worker_idle_verification_outcomes_witness :
    (handleWorkerIdle cfgAutoLoop workerTrackedState "worker-1" .pass "r2").1.done
        = true
      ∧ (handleWorkerIdle cfgAutoLoop workerTrackedState "worker-1" .fail "r2").1.attempt
        = workerTrackedState.attempt + 1 :=
  ⟨((worker_idle_verification_outcomes cfgAutoLoop workerTrackedState "worker-1"
        .pass "r2" rfl rfl rfl rfl).1 rfl).1,
   ((worker_idle_verification_outcomes cfgAutoLoop workerTrackedState "worker-1"
        .fail "r2" rfl rfl rfl rfl).2.2 (by decide) (by decide)).1⟩

/-- True when the action list contains a strategist spawn. -/
def spawnsRalphIn (acts : List OAction) : Bool :=
  acts.any (fun a => match a with | .spawnedRalph _ _ => true | _ => false)

/-- True when the action list contains a worker spawn. -/
def spawnsWorkerIn (acts : List OAction) : Bool :=
  acts.any (fun a => match a with | .spawnedWorker _ _ => true | _ => false)

/-- The claimed invariant: in every reachable state, no operation spawns a
new strategist (respectively worker) while the previous one of the same
kind is still tracked in the supervisor's active-id field. -/
def claimNeverSpawnWhileTracked (cfg : ResolvedConfig) : Prop :=
  ∀ s, ReachableState cfg s → ∀ e,
    (spawnsRalphIn (step cfg s e).2 = true → s.currentRalphSessionId = none)
      ∧ (spawnsWorkerIn (step cfg s e).2 = true → s.currentWorkerSessionId = none)

/-- C3 counterexample: the claimed invariant fails on a three-event run.
Main-session idle spawns strategist R1 for attempt 1; R1 delegates to
worker W1; W1 goes idle with a failing verification while R1 has not yet
gone idle — handleWorkerIdle then spawns strategist R2 for attempt 2 even
though R1 is still tracked in the active-strategist field (no spawn site
checks the active-id fields; the new id simply overwrites the old). -/
theorem never_spawn_while_tracked_refuted :
    ¬ claimNeverSpawnWhileTracked cfgAutoLoop := by
  intro h
  have hr : ReachableState cfgAutoLoop (runTrace cfgAutoLoop
      [.sessionIdle "main-1" .unknown "R1" 0 true,
       .callSpawnWorker "R1" "W1"]) := reachable_runTrace _ _
  have h2 := (h _ hr (.sessionIdle "W1" .fail "R2" 0 true)).1 (by decide)
  have h3 : (runTrace cfgAutoLoop
      [.sessionIdle "main-1" .unknown "R1" 0 true,
       .callSpawnWorker "R1" "W1"]).currentRalphSessionId = some "R1" := by decide
  rw [h2] at h3
  exact Option.noConfusion h3

theorem spawnRalphSession_post (s : OrchState) (a : Nat) (id : String) :
    (spawnRalphSession s a id).1.currentRalphSessionId = some id := rfl

theorem spawnRalphSession_mem (s : OrchState) (a : Nat) (f : String)
    (id : String) (att : Nat) :
    (OAction.spawnedRalph id att ∈ (spawnRalphSession s a f).2 →
        (spawnRalphSession s a f).1.currentRalphSessionId = some id)
      ∧ OAction.spawnedWorker id att ∉ (spawnRalphSession s a f).2 := by
  constructor
  · intro hmem
    simp [spawnRalphSession] at hmem
    rw [hmem.1]
    rfl
  · simp [spawnRalphSession]

theorem spawnRalphSession_acts (s : OrchState) (a : Nat) (id : String) :
    (spawnRalphSession s a id).2 = [.spawnedRalph id a] := rfl

theorem handleWorkerIdle_spawn_mem (cfg : ResolvedConfig) (s : OrchState)
    (wid : String) (v : Verdict) (f : String) (id : String) (att : Nat) :
    (OAction.spawnedRalph id att ∈ (handleWorkerIdle cfg s wid v f).2 →
        (handleWorkerIdle cfg s wid v f).1.currentRalphSessionId = some id)
      ∧ OAction.spawnedWorker id att ∉ (handleWorkerIdle cfg s wid v f).2 := by
  by_cases h1 : s.currentWorkerSessionId ≠ some wid
  · simp [handleWorkerIdle, if_pos h1]
  · by_cases h2 : s.done = true
    · simp [handleWorkerIdle, if_neg h1, if_pos h2]
    · by_cases h3 : cfg.enabled = false
      · simp [handleWorkerIdle, if_neg h1, if_neg h2, if_pos h3]
      · by_cases h4 : cfg.autoStartOnMainIdle = false
        · simp [handleWorkerIdle, if_neg h1, if_neg h2, if_neg h3, if_pos h4]
        · cases v with
          | pass =>
            simp [handleWorkerIdle, if_neg h1, if_neg h2, if_neg h3, if_neg h4]
          | fail =>
            by_cases h5 : cfg.maxAttempts ≤ (s.attempt : Int)
            · simp [handleWorkerIdle, if_neg h1, if_neg h2, if_neg h3, if_neg h4,
                if_pos h5]
            · simp only [handleWorkerIdle, if_neg h1, if_neg h2, if_neg h3,
                if_neg h4, if_neg h5]
              constructor
              · intro hmem
                simp [spawnRalphSession] at hmem
                rw [hmem.1]
                rfl
              · simp [spawnRalphSession]
          | unknown =>
            by_cases h5 : cfg.maxAttempts ≤ (s.attempt : Int)
            · simp [handleWorkerIdle, if_neg h1, if_neg h2, if_neg h3, if_neg h4,
                if_pos h5]
            · simp only [handleWorkerIdle, if_neg h1, if_neg h2, if_neg h3,
                if_neg h4, if_neg h5]
              constructor
              · intro hmem
                simp [spawnRalphSession] at hmem
                rw [hmem.1]
                rfl
              · simp [spawnRalphSession]

theorem handleRalphSessionIdle_no_spawn (s : OrchState) (rid : String)
    (id : String) (att : Nat) :
    OAction.spawnedRalph id att ∉ (handleRalphSessionIdle s rid).2
      ∧ OAction.spawnedWorker id att ∉ (handleRalphSessionIdle s rid).2 := by
  by_cases h1 : s.currentRalphSessionId ≠ some rid
  · simp [handleRalphSessionIdle, if_pos h1]
  · by_cases h2 : s.done = true
    · simp [handleRalphSessionIdle, if_neg h1, if_pos h2]
    · simp only [handleRalphSessionIdle, if_neg h1, if_neg h2]
      cases hl : lookupA s.sessions rid with
      | some st =>
        by_cases hw : st.workerSpawned = true
        · simp [hw]
        · simp [hw]
      | none => simp

theorem mainIdleStart_spawn_mem (s : OrchState) (ready : Bool) (f : String)
    (id : String) (att : Nat) :
    (OAction.spawnedRalph id att ∈ (mainIdleStart s ready f).2 →
        (mainIdleStart s ready f).1.currentRalphSessionId = some id)
      ∧ OAction.spawnedWorker id att ∉ (mainIdleStart s ready f).2 := by
  by_cases hr : ready = false
  · simp [mainIdleStart, if_pos hr]
  · simp only [mainIdleStart, if_neg hr]
    constructor
    · intro hmem
      simp [spawnRalphSession] at hmem
      rw [hmem.1]
      rfl
    · simp [spawnRalphSession]

theorem handleMainIdle_spawn_mem (cfg : ResolvedConfig) (s : OrchState)
    (sid : String) (now : Int) (ready : Bool) (f : String)
    (id : String) (att : Nat) :
    (OAction.spawnedRalph id att ∈ (handleMainIdle cfg s sid now ready f).2 →
        (handleMainIdle cfg s sid now ready f).1.currentRalphSessionId = some id)
      ∧ OAction.spawnedWorker id att ∉ (handleMainIdle cfg s sid now ready f).2 := by
  by_cases h1 : s.done = true
  · simp [handleMainIdle, if_pos h1]
  · by_cases h2 : s.paused = true
    · simp [handleMainIdle, if_neg h1, if_pos h2]
    · by_cases h3 : s.currentRalphSessionId.isSome = true
      · simp [handleMainIdle, if_neg h1, if_neg h2, if_pos h3]
      · by_cases h4 : s.currentWorkerSessionId.isSome = true
        · simp [handleMainIdle, if_neg h1, if_neg h2, if_neg h3, if_pos h4]
        · by_cases h5 : cfg.enabled = false
          · simp [handleMainIdle, if_neg h1, if_neg h2, if_neg h3, if_neg h4,
              if_pos h5]
          · by_cases h6 : (match s.lastMainIdleAt with
                | some t => decide (now - t < 800)
                | none => false) = true
            · simp [handleMainIdle, if_neg h1, if_neg h2, if_neg h3, if_neg h4,
                if_neg h5, if_pos h6]
            · simp only [handleMainIdle, if_neg h1, if_neg h2, if_neg h3,
                if_neg h4, if_neg h5, if_neg h6]
              cases hb : s.sessionId with
              | none => exact mainIdleStart_spawn_mem _ _ _ _ _
              | some bound =>
                by_cases h7 : bound ≠ sid
                · simp [if_pos h7]
                · simp only [if_neg h7]
                  exact mainIdleStart_spawn_mem _ _ _ _ _

theorem resume_spawn_mem (s : OrchState) (caller : String) (startLoop : Bool)
    (f : String) (id : String) (att : Nat) :
    (OAction.spawnedRalph id att
          ∈ (tool_ralph_resume_supervision s caller startLoop f).2 →
        (tool_ralph_resume_supervision s caller
            startLoop f).1.currentRalphSessionId = some id)
      ∧ OAction.spawnedWorker id att
          ∉ (tool_ralph_resume_supervision s caller startLoop f).2 := by
  unfold tool_ralph_resume_supervision
  by_cases h1 : startLoop = false
  · simp [if_pos h1]
  · simp only [if_neg h1]
    repeat' split
    all_goals first
      | exact spawnRalphSession_mem _ _ _ _ _
      | simp

theorem ite_pair_spawn_mem (c : Prop) [Decidable c] (sB sA : OrchState)
    (a : Nat) (f : String) (id : String) (att : Nat) :
    (OAction.spawnedRalph id att
          ∈ (if c then (sB, ([] : List OAction)) else spawnRalphSession sA a f).2 →
        (if c then (sB, ([] : List OAction))
            else spawnRalphSession sA a f).1.currentRalphSessionId = some id)
      ∧ OAction.spawnedWorker id att
          ∉ (if c then (sB, ([] : List OAction)) else spawnRalphSession sA a f).2 := by
  split
  · simp
  · exact spawnRalphSession_mem _ _ _ _ _

theorem create_supervisor_spawn_mem (s : OrchState) (caller : String)
    (forceRebind startLoop restartIfDone ready : Bool) (f : String)
    (id : String) (att : Nat) :
    (OAction.spawnedRalph id att
          ∈ (tool_ralph_create_supervisor_session s caller forceRebind startLoop
              restartIfDone ready f).2 →
        (tool_ralph_create_supervisor_session s caller forceRebind startLoop
            restartIfDone ready f).1.currentRalphSessionId = some id)
      ∧ OAction.spawnedWorker id att
          ∉ (tool_ralph_create_supervisor_session s caller forceRebind startLoop
              restartIfDone ready f).2 := by
  unfold tool_ralph_create_supervisor_session
  repeat' split
  all_goals first
    | exact spawnRalphSession_mem _ _ _ _ _
    | exact ite_pair_spawn_mem _ _ _ _ _ _ _
    | simp

theorem spawn_worker_tool_mem (cfg : ResolvedConfig) (s : OrchState)
    (caller wid : String) (id : String) (att : Nat) :
    (OAction.spawnedRalph id att
          ∉ (step cfg s (.callSpawnWorker caller wid)).2)
      ∧ (OAction.spawnedWorker id att
            ∈ (step cfg s (.callSpawnWorker caller wid)).2 →
          (step cfg s
              (.callSpawnWorker caller wid)).1.currentWorkerSessionId = some id) := by
  simp only [step]
  unfold tool_ralph_spawn_worker_impl
  cases hl : lookupA s.sessions caller with
  | none => simp
  | some st =>
    by_cases h1 : st.role ≠ Role.ralph
    · simp [if_pos h1]
    · simp only [if_neg h1]
      by_cases h2 : st.workerSpawned = true
      · simp [if_pos h2]
      · simp only [if_neg h2]
        constructor
        · simp [spawnRlmWorker]
        · intro hmem
          simp [spawnRlmWorker] at hmem
          rw [hmem.1]
          rfl

/-- C3 (amended): the active-strategist and active-worker fields each hold
at most one session id, and every spawn overwrites the field of its kind
with exactly the new session id; a strategist session that already
delegated can never trigger a second worker spawn (ralph_spawn_worker only
succeeds for a registered ralph-role session whose workerSpawned flag is
still false).  The orchestrator does not, however, check the active-id
fields before spawning: a spawn may occur while the previous id of the same
kind is still tracked, in which case the old id is overwritten. -/
theorem spawn_overwrites_single_active_id (cfg : ResolvedConfig)
    (s : OrchState) (e : OEvent) (id : String) (att : Nat) :
    (OAction.spawnedRalph id att ∈ (step cfg s e).2 →
        (step cfg s e).1.currentRalphSessionId = some id)
      ∧ (OAction.spawnedWorker id att ∈ (step cfg s e).2 →
          (step cfg s e).1.currentWorkerSessionId = some id)
      ∧ (∀ caller workerId,
          (step cfg s (.callSpawnWorker caller workerId)).2 ≠ [] →
          ∃ st, lookupA s.sessions caller = some st
            ∧ st.role = .ralph ∧ st.workerSpawned = false) := by
  have hthird : ∀ caller workerId,
      (step cfg s (.callSpawnWorker caller workerId)).2 ≠ [] →
      ∃ st, lookupA s.sessions caller = some st
        ∧ st.role = .ralph ∧ st.workerSpawned = false := by
    intro caller workerId hne
    simp only [step] at hne
    revert hne
    unfold tool_ralph_spawn_worker_impl
    cases hl : lookupA s.sessions caller with
    | none => intro hne; simp at hne
    | some st =>
      dsimp only
      by_cases h1 : st.role ≠ Role.ralph
      · rw [if_pos h1]; intro hne; simp at hne
      · rw [if_neg h1]
        by_cases h2 : st.workerSpawned = true
        · rw [if_pos h2]; intro hne; simp at hne
        · rw [if_neg h2]; intro _
          exact ⟨st, rfl, not_ne_iff.mp h1, by simpa using h2⟩
  have hmain : (OAction.spawnedRalph id att ∈ (step cfg s e).2 →
        (step cfg s e).1.currentRalphSessionId = some id)
      ∧ (OAction.spawnedWorker id att ∈ (step cfg s e).2 →
          (step cfg s e).1.currentWorkerSessionId = some id) := by
    cases e with
    | sessionIdle sid v f now ready =>
      simp only [step]
      split
      · simp
      · split
        · exact ⟨(handleWorkerIdle_spawn_mem cfg s sid v f id att).1,
            fun hmem =>
              absurd hmem (handleWorkerIdle_spawn_mem cfg s sid v f id att).2⟩
        · split
          · exact ⟨fun hmem =>
                absurd hmem (handleRalphSessionIdle_no_spawn s sid id att).1,
              fun hmem =>
                absurd hmem (handleRalphSessionIdle_no_spawn s sid id att).2⟩
          · exact ⟨(handleMainIdle_spawn_mem cfg s sid now ready f id att).1,
              fun hmem =>
                absurd hmem (handleMainIdle_spawn_mem cfg s sid now ready f id att).2⟩
    | callSpawnWorker caller workerId =>
      exact ⟨fun hmem =>
          absurd hmem (spawn_worker_tool_mem cfg s caller workerId id att).1,
        (spawn_worker_tool_mem cfg s caller workerId id att).2⟩
    | callResumeSupervision caller startLoop f =>
      exact ⟨(resume_spawn_mem s caller startLoop f id att).1,
        fun hmem => absurd hmem (resume_spawn_mem s caller startLoop f id att).2⟩
    | callCreateSupervisorSession caller fr sl rd ready f =>
      exact ⟨(create_supervisor_spawn_mem s caller fr sl rd ready f id att).1,
        fun hmem =>
          absurd hmem (create_supervisor_spawn_mem s caller fr sl rd ready f id att).2⟩
  exact ⟨hmain.1, hmain.2, hthird⟩

/-- Concrete instance of spawn_overwrites_single_active_id: after the main
session starts attempt 1 with strategist R1, R1's ralph_spawn_worker call
yields exactly worker W1 as the tracked active worker. -/
theorem spawn_overwrites_single_active_id_witness :
    (step cfgAutoLoop
        (runTrace cfgAutoLoop [.sessionIdle "main-1" .unknown "R1" 0 true])
        (.callSpawnWorker "R1" "W1")).1.currentWorkerSessionId = some "W1" :=
  (spawn_overwrites_single_active_id cfgAutoLoop
      (runTrace cfgAutoLoop [.sessionIdle "main-1" .unknown "R1" 0 true])
      (.callSpawnWorker "R1" "W1") "W1" 1).2.1 (by decide)

/-- The claim that ralph_spawn_worker succeeds only for the currently
active strategist session. -/
def claimSpawnWorkerOnlyFromActive (cfg : ResolvedConfig) : Prop :=
  ∀ s, ReachableState cfg s → ∀ caller workerId r,
    tool_ralph_spawn_worker_impl s caller workerId = .ok r →
    s.currentRalphSessionId = some caller

/-- C5 counterexample: both guarantees of the claim fail on one reachable
run.  Main idle spawns strategist R1; R1 goes idle without delegating
(clearing the active-strategist field); resuming supervision with
start_loop spawns strategist R2 for the same attempt 1.  First, the stale
session R1 — still registered with the ralph role and an unset
workerSpawned flag — calls ralph_spawn_worker and succeeds although the
active strategist is R2, refuting "only callable by the currently active
strategist session": the tool checks only the caller's registered role and
its own delegation flag, never the active-strategist field.  Second,
continuing the same run, R2 then also calls ralph_spawn_worker and
succeeds: two successful delegations within attempt 1 (both spawned
workers tagged attempt 1), refuting "delegation happens at most once per
attempt" — the workerSpawned flag is per session, and an attempt can have
more than one strategist session. -/
theorem spawn_worker_only_from_active_refuted :
    ¬ claimSpawnWorkerOnlyFromActive CONFIG_DEFAULTS
      ∧ (step CONFIG_DEFAULTS (runTrace CONFIG_DEFAULTS
            [.sessionIdle "main-1" .unknown "R1" 0 true,
             .sessionIdle "R1" .unknown "X" 1000 true,
             .callResumeSupervision "main-1" true "R2"])
          (.callSpawnWorker "R1" "W1")).2 = [.spawnedWorker "W1" 1]
      ∧ (step CONFIG_DEFAULTS (runTrace CONFIG_DEFAULTS
            [.sessionIdle "main-1" .unknown "R1" 0 true,
             .sessionIdle "R1" .unknown "X" 1000 true,
             .callResumeSupervision "main-1" true "R2",
             .callSpawnWorker "R1" "W1"])
          (.callSpawnWorker "R2" "W2")).2 = [.spawnedWorker "W2" 1] := by
  refine ⟨?_, by decide, by decide⟩
  intro h
  have hr : ReachableState CONFIG_DEFAULTS (runTrace CONFIG_DEFAULTS
      [.sessionIdle "main-1" .unknown "R1" 0 true,
       .sessionIdle "R1" .unknown "X" 1000 true,
       .callResumeSupervision "main-1" true "R2"]) := reachable_runTrace _ _
  obtain ⟨r, hrok⟩ : ∃ r, tool_ralph_spawn_worker_impl (runTrace CONFIG_DEFAULTS
      [.sessionIdle "main-1" .unknown "R1" 0 true,
       .sessionIdle "R1" .unknown "X" 1000 true,
       .callResumeSupervision "main-1" true "R2"]) "R1" "W9" = .ok r := ⟨_, rfl⟩
  have h2 := h _ hr "R1" "W9" r hrok
  have h3 : (runTrace CONFIG_DEFAULTS
      [.sessionIdle "main-1" .unknown "R1" 0 true,
       .sessionIdle "R1" .unknown "X" 1000 true,
       .callResumeSupervision "main-1" true "R2"]).currentRalphSessionId
        = some "R2" := by decide
  rw [h2] at h3
  exact absurd h3 (by decide)

/-- C5 (amended): ralph_spawn_worker succeeds exactly when the calling
session is registered with the strategist (ralph) role and has not yet
delegated — not necessarily the currently tracked active strategist — and
on success (for the fresh worker id the host hands out, distinct from the
caller's id) the caller's delegation flag is set, so a second call from the
same strategist session is rejected: delegation happens at most once per
strategist session.  This yields no per-attempt bound: the flag is per
session, and after a strategist goes idle without delegating, resuming
supervision spawns a second strategist session for the same attempt number
which can delegate again (see the counterexample's second run). -/
theorem spawn_worker_tool_characterization (s : OrchState)
    (caller workerId : String) :
    ((∃ r, tool_ralph_spawn_worker_impl s caller workerId = .ok r)
        ↔ ∃ st, lookupA s.sessions caller = some st
            ∧ st.role = .ralph ∧ st.workerSpawned = false)
      ∧ (∀ s2 acts,
          tool_ralph_spawn_worker_impl s caller workerId = .ok (s2, acts) →
          caller ≠ workerId →
          ∃ st2, lookupA s2.sessions caller = some st2
            ∧ st2.workerSpawned = true) := by
  constructor
  · constructor
    · rintro ⟨r, hr⟩
      revert hr
      unfold tool_ralph_spawn_worker_impl
      cases hl : lookupA s.sessions caller with
      | none => intro hr; exact absurd hr (by simp)
      | some st =>
        dsimp only
        by_cases h1 : st.role ≠ Role.ralph
        · rw [if_pos h1]; intro hr; exact absurd hr (by simp)
        · rw [if_neg h1]
          by_cases h2 : st.workerSpawned = true
          · rw [if_pos h2]; intro hr; exact absurd hr (by simp)
          · rw [if_neg h2]; intro _
            exact ⟨st, rfl, not_ne_iff.mp h1, by simpa using h2⟩
    · rintro ⟨st, hl, hrole, hws⟩
      unfold tool_ralph_spawn_worker_impl
      rw [hl]
      dsimp only
      rw [if_neg (by simp [hrole]), if_neg (by simp [hws])]
      exact ⟨_, rfl⟩
  · intro s2 acts hok hne
    revert hok
    unfold tool_ralph_spawn_worker_impl
    cases hl : lookupA s.sessions caller with
    | none => intro hok; exact absurd hok (by simp)
    | some st =>
      dsimp only
      by_cases h1 : st.role ≠ Role.ralph
      · rw [if_pos h1]; intro hok; exact absurd hok (by simp)
      · rw [if_neg h1]
        by_cases h2 : st.workerSpawned = true
        · rw [if_pos h2]; intro hok; exact absurd hok (by simp)
        · rw [if_neg h2]
          intro hok
          have hpair := Except.ok.inj hok
          have hs2 : s2 = _ := (congrArg Prod.fst hpair).symm
          refine ⟨{ st with workerSpawned := true }, ?_, rfl⟩
          rw [hs2]
          simp only [spawnRlmWorker]
          rw [lookupA_setAssoc_ne _ _ _ _ hne, lookupA_setAssoc_self]

/-- Concrete instance of spawn_worker_tool_characterization: a registered
strategist session that has not delegated successfully spawns a worker. -/
theorem spawn_worker_tool_characterization_witness :
    ∃ r, tool_ralph_spawn_worker_impl
        { initialSupervisorState with sessions := [("R1", freshSession .ralph 1)] }
        "R1" "W1" = .ok r :=
  (spawn_worker_tool_characterization
      { initialSupervisorState with sessions := [("R1", freshSession .ralph 1)] }
      "R1" "W1").1.mpr ⟨freshSession .ralph 1, rfl, rfl, rfl⟩

end RalphRlm
